import Mathlib

/-!
Shallow embedding of the smart-search subsystem of the rental storefront
(`rental/services.py` and the search portion of `rental/views.py`), together
with theorems settling the specification claims about it.

The catalog store is modelled as a list of product records in store-default
order; Django ORM operations (`filter` with `icontains` predicates,
`values_list`, `order_by('-created_at')`) are embedded as the corresponding
pure list operations.  The external LLM endpoint is modelled by an explicit
`LLMReply` value describing how the call turned out.
-/

/- ### Python string primitives used by the source -/

/-- Python `str.lower()`: per-character lowercasing. -/
def py_lower (s : String) : String := ⟨s.data.map Char.toLower⟩

/-- Characters stripped from both ends by Python `str.strip()`. -/
def strip_ends (l : List Char) : List Char :=
  ((l.dropWhile Char.isWhitespace).reverse.dropWhile Char.isWhitespace).reverse

/-- Python `str.strip()`: drop leading and trailing whitespace. -/
def py_strip (s : String) : String := ⟨strip_ends s.data⟩

/-- Python truthiness of a string: nonempty strings are truthy. -/
def py_truthy (s : String) : Bool := !s.data.isEmpty

/-- Auxiliary for `pysplit`: accumulate the current (reversed) word. -/
def split_ws_aux : List Char → List Char → List String
  | [], acc => if acc.isEmpty then [] else [⟨acc.reverse⟩]
  | c :: rest, acc =>
    if c.isWhitespace then
      if acc.isEmpty then split_ws_aux rest []
      else ⟨acc.reverse⟩ :: split_ws_aux rest []
    else split_ws_aux rest (c :: acc)

/-- Python `str.split()` with no arguments: split on whitespace runs,
producing no empty words. -/
def pysplit (s : String) : List String := split_ws_aux s.data []

/-- Does `needle` occur at the start of `hay`? -/
def starts_with : List Char → List Char → Bool
  | [], _ => true
  | _ :: _, [] => false
  | a :: as, b :: bs => a == b && starts_with as bs

/-- Does `needle` occur contiguously anywhere in `hay`? -/
def has_sub (needle : List Char) : List Char → Bool
  | [] => needle.isEmpty
  | c :: rest => starts_with needle (c :: rest) || has_sub needle rest

/-- Django `field__icontains=term`: case-insensitive substring containment. -/
def icontains (hay needle : String) : Bool :=
  has_sub (py_lower needle).data (py_lower hay).data

/- ### Data model -/

/-- Modelled from the spec: the `Product` record of the Catalog Store
(`rental/models.py` is not part of the reviewed source).  Only the fields
the search core reads are kept: identity `id`, display fields `name`,
`description`, `article`, the many-to-many tag relation (as a list of tag
identifiers) and the creation stamp used by `order_by` (as a number, newer
is larger). -/
structure Product where
  id : Int
  name : String
  description : String
  article : String
  tags : List Int
  created_at : Nat
deriving DecidableEq, Repr

/-- Modelled from the spec: the hierarchical `Tag` record of the Catalog
Store (`rental/models.py` is not part of the reviewed source): identity,
display name, nullable parent reference and manual sort order. -/
structure Tag where
  id : Int
  name : String
  parent : Option Int
  order : Nat
deriving DecidableEq, Repr

/-- Modelled from the spec: `expand_search_query` is referenced by the
orchestrator's exception handler as a synonym-expansion fallback helper, but
its definition is not part of the reviewed source; the spec describes it as a
pluggable synonym table mapping a query to an expanded query.  It is modelled
as an arbitrary query-to-query function supplied as a parameter. -/
def ExpandQuery : Type := String → String

/- ### SmartSearchService (rental/services.py) -/

/-- The two process-lifetime flags of `SmartSearchService`. -/
structure ServiceState where
  api_available : Bool
  api_configured : Bool
deriving DecidableEq, Repr

/-- `SmartSearchService.__init__`: `api_available` mirrors whether the
`openai` import succeeded; `api_configured` is set only when the library is
available and `OPENAI_API_KEY` is a truthy string whose `strip()` is also
truthy. -/
def init_service (openai_available : Bool) (api_key : Option String) : ServiceState :=
  let configured :=
    openai_available &&
      (match api_key with
       | some k => py_truthy k && py_truthy (py_strip k)
       | none => false)
  ⟨openai_available, configured⟩

/-- A Django `Q` object as built by `fallback_search`: either the empty
(falsy) `Q()` or a predicate on products. -/
def SearchQ : Type := Option (Product → Bool)

/-- `q |= pred`: OR-combination of a `Q` accumulator with a predicate. -/
def q_or (q : SearchQ) (f : Product → Bool) : SearchQ :=
  match q with
  | none => some f
  | some g => some (fun p => g p || f p)

/-- Evaluate a `Q` object on a product (the empty `Q()` matches nothing when
used as a filter guard in this code path). -/
def q_holds (q : SearchQ) (p : Product) : Bool :=
  match q with
  | none => false
  | some f => f p

/-- The per-term predicate of `fallback_search`:
`Q(name__icontains=term) | Q(description__icontains=term) | Q(article__icontains=term)`. -/
def term_predicate (t : String) (p : Product) : Bool :=
  icontains p.name t || icontains p.description t || icontains p.article t

/-- The `q_objects` accumulation loop of `fallback_search`: terms of length
at most 2 are skipped, the rest are OR-ed in. -/
def build_q (terms : List String) : SearchQ :=
  terms.foldl (fun q t => if t.length > 2 then q_or q (term_predicate t) else q) none

/-- `SmartSearchService.fallback_search`: lowercase and whitespace-split the
query, build the OR of `icontains` predicates over the terms longer than two
characters, and return the ids of the matching products (store order); with
a falsy `q_objects`, return the empty list. -/
def fallback_search (catalog : List Product) (query : String) : List Int :=
  match build_q (pysplit (py_lower query)) with
  | some f => (catalog.filter f).map (fun p => p.id)
  | none => []

/-- How the external LLM call turned out, as observed by
`search_with_chatgpt`: an exception during the API call, a response text that
fails JSON parsing, or a parsed `relevant_products` list. -/
inductive LLMReply where
  | exn
  | badJson
  | parsed (ids : List Int)
deriving DecidableEq, Repr

/-- `SmartSearchService.search_with_chatgpt`: degrade to `fallback_search`
when the service is unavailable or unconfigured; return `[]` on an empty
catalog before any LLM call; otherwise degrade to `fallback_search` on a
call exception or malformed JSON; filter the parsed ids against the ids that
exist in the catalog and degrade to `fallback_search` when none survive. -/
def search_with_chatgpt (svc : ServiceState) (catalog : List Product)
    (llm : LLMReply) (query : String) : List Int :=
  if !svc.api_available || !svc.api_configured then
    fallback_search catalog query
  else if catalog.isEmpty then
    []
  else
    match llm with
    | .exn => fallback_search catalog query
    | .badJson => fallback_search catalog query
    | .parsed ids =>
      let existing := catalog.map (fun p => p.id)
      let valid := ids.filter (fun pid => existing.contains pid)
      if valid.isEmpty then fallback_search catalog query else valid

/-- The dict comprehension `{p.id: p for p in products}` followed by lookup:
later list entries overwrite earlier ones, so lookup finds the last matching
entry. -/
def product_dict_get (products : List Product) (pid : Int) : Option Product :=
  products.reverse.find? (fun p => p.id == pid)

/-- `SmartSearchService.smart_search`: empty result on a blank query;
otherwise fetch the products whose id is among the returned ids and reorder
them to follow the id sequence exactly, skipping ids with no product. -/
def smart_search (svc : ServiceState) (catalog : List Product)
    (llm : LLMReply) (query : String) : List Product :=
  if !py_truthy (py_strip query) then []
  else
    let product_ids := search_with_chatgpt svc catalog llm query
    if product_ids.isEmpty then []
    else
      let products := catalog.filter (fun p => product_ids.contains p.id)
      product_ids.filterMap (fun pid => product_dict_get products pid)

/- ### Views layer (rental/views.py) -/

/-- `smart_search_status` (views): `api_key_configured` is the plain Python
truthiness of the `OPENAI_API_KEY` setting (no `strip()` here); the probe
reports `(available, configured)` where `available` additionally requires the
service instance's `api_available` flag. -/
def smart_search_status (api_key : Option String) (svc : ServiceState) : Bool × Bool :=
  let api_key_configured :=
    match api_key with
    | some k => py_truthy k
    | none => false
  (api_key_configured && svc.api_available, api_key_configured)

/-- Insert a product into a list sorted by `created_at` descending. -/
def insert_by_created (p : Product) : List Product → List Product
  | [] => [p]
  | q :: rest =>
    if p.created_at ≥ q.created_at then p :: q :: rest
    else q :: insert_by_created p rest

/-- `order_by('-created_at')`: sort newest-first (stable insertion sort). -/
def sort_by_created_desc (l : List Product) : List Product :=
  l.foldr insert_by_created []

/-- The `except` branch of `product_list`'s search handling: the literal
search run when `smart_search` raises.  It matches the original (stripped)
query case-insensitively against `name`, `article` and `description`, and the
expanded query against `name` and `description` only, then orders by
`created_at` descending (`.distinct()` is the identity here: a single filter
over the catalog produces no duplicates). -/
def expand_literal_fallback (expand : ExpandQuery) (catalog : List Product)
    (sq : String) : List Product :=
  let exq := expand sq
  sort_by_created_desc (catalog.filter (fun p =>
    icontains p.name sq || icontains p.article sq || icontains p.description sq ||
    icontains p.name exq || icontains p.description exq))

/-- The literal search exactly as claim C1 words it: case-insensitive
containment of the original query AND of the expanded query, each over
`name`, `description` and `article`.  Stated from the claim's words, for
comparison with `expand_literal_fallback`, which is translated from the
source. -/
def claimed_literal_fallback (expand : ExpandQuery) (catalog : List Product)
    (sq : String) : List Product :=
  let exq := expand sq
  sort_by_created_desc (catalog.filter (fun p =>
    icontains p.name sq || icontains p.article sq || icontains p.description sq ||
    icontains p.name exq || icontains p.description exq || icontains p.article exq))

/-- How the call `smart_search_service.smart_search(search_query)` turned out
as observed by the orchestrator: a returned product list, or a raised
exception. -/
inductive SmartOutcome where
  | ok (products : List Product)
  | exn
deriving DecidableEq, Repr

/-- The result of the orchestrator's search pipeline: the product sequence,
the effective `search_type` mode string, and whether a user-visible warning
message was added. -/
structure ResolveResult where
  products : List Product
  mode : String
  warning : Bool
deriving DecidableEq, Repr

/-- The query-handling stage of `product_list` (views lines 51-83), before
tag handling: on a truthy stripped query, a successful smart search yields
its products with mode `smart` (an empty list stays empty); a raised
exception is caught here and answered by `expand_literal_fallback` with mode
`fallback` and a user-visible warning.  On a blank query the full catalog in
store order is kept with mode `all`. -/
def search_stage (expand : ExpandQuery) (catalog : List Product)
    (sq : String) (smart : SmartOutcome) : ResolveResult :=
  if py_truthy sq then
    match smart with
    | .ok ps => ⟨ps, "smart", false⟩
    | .exn => ⟨expand_literal_fallback expand catalog sq, "fallback", true⟩
  else ⟨catalog, "all", false⟩

/-- The tag-filter stage of `product_list` (views lines 85-113), given the
tag filter *after* Django's integer pk coercion has succeeded: `tagf` is the
coerced tag identifier (`none` models the falsy empty GET value, for which
the whole block is skipped).  The coercion itself, and its error path for
truthy non-numeric raw values, live in `product_list_view` below.  An id
matching no tag (`Tag.DoesNotExist`) is swallowed by the `except ... pass`
and leaves the prior result untouched.  `descend` models
`Tag.get_descendants()` (defined in `rental/models.py`, outside the reviewed
source).  With a query present, the prior products are filtered in place
preserving order; with no query, the catalog is filtered by tag membership
and ordered newest-first. -/
def tag_stage (descend : Tag → List Tag) (catalog : List Product)
    (tags : List Tag) (sq : String) (tagf : Option Int)
    (r : ResolveResult) : ResolveResult :=
  match tagf with
  | none => r
  | some tid =>
    match tags.find? (fun t => t.id == tid) with
    | none => r
    | some tag =>
      let all_tags := tag :: descend tag
      let tag_hit := fun (p : Product) => all_tags.any (fun t => p.tags.contains t.id)
      if py_truthy sq then
        ⟨r.products.filter tag_hit, r.mode ++ "_tag", r.warning⟩
      else
        ⟨sort_by_created_desc (catalog.filter tag_hit), "tag", r.warning⟩

/-- The search/filter core of `product_list` (views lines 35-118, before
pagination), on the already-coerced optional tag id: strip the raw query,
run the search stage, run the tag stage, and when neither a query nor a tag
filter is present, show the catalog newest-first with mode `all`.  The raw
string form of the tag filter, with its coercion-failure path, is handled by
`product_list_view`. -/
def product_list_core (expand : ExpandQuery) (descend : Tag → List Tag)
    (catalog : List Product) (tags : List Tag) (query : String)
    (tagf : Option Int) (smart : SmartOutcome) : ResolveResult :=
  let sq := py_strip query
  let r1 := search_stage expand catalog sq smart
  let r2 := tag_stage descend catalog tags sq tagf r1
  if !py_truthy sq && tagf == none then
    ⟨sort_by_created_desc catalog, "all", r2.warning⟩
  else r2

/-- Decimal digit run to a number; `none` on an empty or non-digit run. -/
def digits_to_nat (l : List Char) : Option Nat :=
  if l.isEmpty then none
  else l.foldl (fun acc c =>
    match acc with
    | some n => if c.isDigit then some (n * 10 + (c.toNat - 48)) else none
    | none => none) (some 0)

/-- Django's integer pk coercion of the raw GET `tag` value at
`Tag.objects.get(id=tag_filter)` (views line 88): Python `int(value)` — an
optional sign and decimal digits, with surrounding whitespace stripped;
anything else raises `ValueError`, which `except Tag.DoesNotExist` does not
catch. -/
def parse_tag_id (s : String) : Option Int :=
  match strip_ends s.data with
  | '-' :: rest => (digits_to_nat rest).map (fun n => -(n : Int))
  | '+' :: rest => (digits_to_nat rest).map (fun n => (n : Int))
  | l => (digits_to_nat l).map (fun n => (n : Int))

/-- The full search/filter handling of `product_list` on the raw GET
parameters: an empty `tag` value is falsy and means no filter; a truthy
value is coerced by Django's integer pk field inside `Tag.objects.get` —
when the coercion fails (non-numeric value), the raised `ValueError`
propagates out of the view uncaught (`none`); otherwise the pipeline runs on
the coerced id and returns its result. -/
def product_list_view (expand : ExpandQuery) (descend : Tag → List Tag)
    (catalog : List Product) (tags : List Tag) (query : String)
    (tag_filter : String) (smart : SmartOutcome) : Option ResolveResult :=
  if py_truthy tag_filter then
    match parse_tag_id tag_filter with
    | none => none
    | some tid =>
      some (product_list_core expand descend catalog tags query (some tid) smart)
  else
    some (product_list_core expand descend catalog tags query none smart)

/- ### Helper lemmas -/

lemma q_holds_q_or (q : SearchQ) (f : Product → Bool) (p : Product) :
    q_holds (q_or q f) p = (q_holds q p || f p) := by
  cases q <;> simp [q_or, q_holds]

lemma q_holds_build_q_foldl (terms : List String) (q : SearchQ) (p : Product) :
    q_holds (terms.foldl
        (fun q t => if t.length > 2 then q_or q (term_predicate t) else q) q) p
      = (q_holds q p
          || terms.any (fun t => decide (t.length > 2) && term_predicate t p)) := by
  induction terms generalizing q with
  | nil => simp
  | cons t ts ih =>
    by_cases h : t.length > 2 <;>
      simp [List.foldl_cons, h, ih, q_holds_q_or, Bool.or_assoc]

lemma q_holds_build_q (terms : List String) (p : Product) :
    q_holds (build_q terms) p
      = terms.any (fun t => decide (t.length > 2) && term_predicate t p) := by
  simpa [q_holds] using q_holds_build_q_foldl terms none p

lemma q_or_ne_none (q : SearchQ) (f : Product → Bool) : q_or q f ≠ none := by
  cases q <;> simp [q_or]

lemma build_q_foldl_eq_none (terms : List String) (q : SearchQ) :
    terms.foldl (fun q t => if t.length > 2 then q_or q (term_predicate t) else q) q
        = none
      ↔ (q = none ∧ terms.all (fun t => decide (t.length ≤ 2))) := by
  induction terms generalizing q with
  | nil => simp
  | cons t ts ih =>
    by_cases h : t.length > 2
    · have h2 : ¬ t.length ≤ 2 := by omega
      simp only [List.foldl_cons, if_pos h, ih, List.all_cons]
      simp [q_or_ne_none q (term_predicate t), h2]
    · have h2 : t.length ≤ 2 := by omega
      simp [List.foldl_cons, if_neg h, ih, h2]

lemma build_q_eq_none (terms : List String) :
    build_q terms = none ↔ terms.all (fun t => decide (t.length ≤ 2)) := by
  simpa [build_q] using build_q_foldl_eq_none terms none

lemma fallback_search_nil (query : String) : fallback_search [] query = [] := by
  unfold fallback_search
  cases build_q (pysplit (py_lower query)) <;> simp

lemma fallback_search_mem (catalog : List Product) (query : String) :
    ∀ pid ∈ fallback_search catalog query, ∃ p ∈ catalog, p.id = pid := by
  intro pid hpid
  unfold fallback_search at hpid
  cases hq : build_q (pysplit (py_lower query)) with
  | none => simp [hq] at hpid
  | some f =>
    rw [hq] at hpid
    obtain ⟨p, hp, rfl⟩ := List.mem_map.mp hpid
    exact ⟨p, (List.mem_filter.mp hp).1, rfl⟩

lemma search_unconfigured (svc : ServiceState) (catalog : List Product)
    (llm : LLMReply) (query : String)
    (h : svc.api_available = false ∨ svc.api_configured = false) :
    search_with_chatgpt svc catalog llm query = fallback_search catalog query := by
  unfold search_with_chatgpt
  rcases h with h | h <;> simp [h]

lemma search_with_chatgpt_mem (svc : ServiceState) (catalog : List Product)
    (llm : LLMReply) (query : String) :
    ∀ pid ∈ search_with_chatgpt svc catalog llm query,
      ∃ p ∈ catalog, p.id = pid := by
  intro pid hpid
  unfold search_with_chatgpt at hpid
  split at hpid
  · exact fallback_search_mem catalog query pid hpid
  · split at hpid
    · simp at hpid
    · cases llm with
      | exn => exact fallback_search_mem catalog query pid hpid
      | badJson => exact fallback_search_mem catalog query pid hpid
      | parsed ids =>
        simp only at hpid
        split at hpid
        · exact fallback_search_mem catalog query pid hpid
        · have := (List.mem_filter.mp hpid).2
          rw [List.contains_eq_any_beq] at this
          obtain ⟨x, hx, hbeq⟩ := List.any_eq_true.mp this
          obtain ⟨p, hp, rfl⟩ := List.mem_map.mp hx
          exact ⟨p, hp, (beq_iff_eq.mp hbeq).symm⟩

lemma product_dict_get_id (products : List Product) (pid : Int)
    (h : ∃ p ∈ products, p.id = pid) :
    ∃ p', product_dict_get products pid = some p' ∧ p' ∈ products ∧ p'.id = pid := by
  obtain ⟨p, hp, hpid⟩ := h
  have hsome : (products.reverse.find? (fun p => p.id == pid)).isSome := by
    rw [List.find?_isSome]
    exact ⟨p, List.mem_reverse.mpr hp, by simp [hpid]⟩
  obtain ⟨p', hp'⟩ := Option.isSome_iff_exists.mp hsome
  refine ⟨p', hp', List.mem_reverse.mp (List.mem_of_find?_eq_some hp'), ?_⟩
  exact beq_iff_eq.mp (List.find?_eq_some.mp hp').1

lemma filterMap_dict_map_id (products : List Product) (ids : List Int)
    (h : ∀ pid ∈ ids, ∃ p ∈ products, p.id = pid) :
    (ids.filterMap (fun pid => product_dict_get products pid)).map (fun p => p.id)
        = ids
    ∧ ∀ p ∈ ids.filterMap (fun pid => product_dict_get products pid),
        p ∈ products := by
  induction ids with
  | nil => simp
  | cons pid rest ih =>
    obtain ⟨p', hsome, hpmem, hpid⟩ :=
      product_dict_get_id products pid (h pid (List.mem_cons_self _ _))
    have ihh := ih (fun q hq => h q (List.mem_cons_of_mem _ hq))
    simp only [List.filterMap_cons, hsome]
    constructor
    · simp [hpid, ihh.1]
    · intro p hp
      rcases List.mem_cons.mp hp with rfl | hp
      · exact hpmem
      · exact ihh.2 p hp

example : pysplit " a bb  ccc " = ["a", "bb", "ccc"] := by decide
example : icontains "AbCde" "bcd" = true := by decide
example : icontains "AbCde" "xyz" = false := by decide
example : py_strip "  " = "" := by decide
example : fallback_search [⟨1, "Lamp", "desk light", "L-1", [], 0⟩] "a bb lamp" = [1] := by decide
example : fallback_search [⟨1, "Lamp", "desk light", "L-1", [], 0⟩] "a bb" = [] := by decide

/- ### Concrete sample data used by witnesses and counterexamples -/

/-- A small concrete catalog with two products. -/
def sample_catalog : List Product :=
  [⟨1, "Lamp", "desk light", "L-1", [], 0⟩, ⟨2, "Chair", "wooden seat", "C-7", [], 1⟩]

/-- A product whose article (and no other field) contains the string the
sample synonym expansion below produces. -/
def c1_product : Product := ⟨1, "aaaa", "bbbb", "xyzw", [], 0⟩

/-- A concrete synonym expansion mapping every query to `"xyz"`. -/
def c1_expand : ExpandQuery := fun _ => "xyz"

/- ### Claims -/

/-- C1, counterexample to the claim as stated: with a catalog whose only
product carries the expanded query solely in its `article` field, the
orchestrator's exception handler returns no products, while the search the
claim describes (expanded query also matched over `article`) returns that
product; so the handler does not combine containment of the expanded query
over `article`. -/
theorem c1_expanded_query_article_counterexample :
    (product_list_core c1_expand (fun _ => []) [c1_product] [] "qqq" none
        SmartOutcome.exn).products = []
    ∧ claimed_literal_fallback c1_expand [c1_product] "qqq" = [c1_product] := by
  constructor <;> rfl

/-- C1 (amended): for every non-empty query, when the smart-search call
raises an exception, `product_list_core` catches it at its own layer and
answers with the synonym-expanded literal search — case-insensitive
containment of the original query over `name`, `article` and `description`,
and of the expanded query over `name` and `description` — ordered
newest-first, with mode `fallback` and a user-visible warning, rather than
propagating the exception. -/
theorem c1_orchestrator_catches_exception (expand : ExpandQuery)
    (descend : Tag → List Tag) (catalog : List Product) (tags : List Tag)
    (query : String) (hq : py_truthy (py_strip query) = true) :
    product_list_core expand descend catalog tags query none SmartOutcome.exn
      = ⟨expand_literal_fallback expand catalog (py_strip query),
          "fallback", true⟩ := by
  unfold product_list_core tag_stage search_stage
  simp [hq]

/-- C1 witness: the amended theorem applied at a concrete non-empty query. -/
theorem c1_orchestrator_catches_exception_witness :
    product_list_core c1_expand (fun _ => []) [c1_product] [] "qqq" none
        SmartOutcome.exn
      = ⟨expand_literal_fallback c1_expand [c1_product] (py_strip "qqq"),
          "fallback", true⟩ :=
  c1_orchestrator_catches_exception c1_expand (fun _ => []) [c1_product] []
    "qqq" (by decide)

/-- C2: every id returned by `search_with_chatgpt` is the id of a product
existing in the catalog, and whenever no LLM-returned id exists in the
catalog, the result is exactly `fallback_search`'s result for the query. -/
theorem c2_search_integrity_filter (svc : ServiceState) (catalog : List Product)
    (llm : LLMReply) (query : String) (ids : List Int) :
    (∀ pid ∈ search_with_chatgpt svc catalog llm query, ∃ p ∈ catalog, p.id = pid)
    ∧ (ids.filter (fun pid => (catalog.map (fun p => p.id)).contains pid) = [] →
        search_with_chatgpt svc catalog (LLMReply.parsed ids) query
          = fallback_search catalog query) := by
  refine ⟨search_with_chatgpt_mem svc catalog llm query, fun hempty => ?_⟩
  unfold search_with_chatgpt
  split
  · rfl
  · split
    · next hcat =>
      have hnil : catalog = [] := by
        cases catalog with
        | nil => rfl
        | cons a l => simp at hcat
      rw [hnil, fallback_search_nil]
    · simp only [hempty, List.isEmpty_nil, if_true]

/-- C2 witness: the integrity filter applied where the only LLM-returned id
does not exist in the catalog. -/
theorem c2_search_integrity_filter_witness :
    search_with_chatgpt ⟨true, true⟩ sample_catalog (LLMReply.parsed [99]) "lamp"
      = fallback_search sample_catalog "lamp" :=
  (c2_search_integrity_filter ⟨true, true⟩ sample_catalog
    (LLMReply.parsed [99]) "lamp" [99]).2 (by decide)

/-- C3: when the service is unavailable (library failed to load) or
unconfigured (no usable credential), `search_with_chatgpt` returns exactly
`fallback_search`'s result, for every LLM behaviour (the LLM is never
consulted). -/
theorem c3_degraded_search_equals_fallback (svc : ServiceState)
    (catalog : List Product) (llm : LLMReply) (query : String)
    (h : svc.api_available = false ∨ svc.api_configured = false) :
    search_with_chatgpt svc catalog llm query = fallback_search catalog query :=
  search_unconfigured svc catalog llm query h

/-- C3 witness: an unavailable service degrades a concrete search. -/
theorem c3_degraded_search_equals_fallback_witness :
    search_with_chatgpt ⟨false, false⟩ sample_catalog (LLMReply.parsed [1]) "lamp"
      = fallback_search sample_catalog "lamp" :=
  c3_degraded_search_equals_fallback ⟨false, false⟩ sample_catalog
    (LLMReply.parsed [1]) "lamp" (Or.inl rfl)

/-- C4: for every non-blank query, the products materialized by
`smart_search` carry exactly the identifier sequence produced by
`search_with_chatgpt`, in the same order, and every returned record belongs
to the catalog. -/
theorem c4_smart_search_preserves_order (svc : ServiceState)
    (catalog : List Product) (llm : LLMReply) (query : String)
    (hq : py_truthy (py_strip query) = true) :
    (smart_search svc catalog llm query).map (fun p => p.id)
        = search_with_chatgpt svc catalog llm query
    ∧ ∀ p ∈ smart_search svc catalog llm query, p ∈ catalog := by
  unfold smart_search
  simp only [hq, Bool.not_true, Bool.false_eq_true, if_false]
  by_cases hids : (search_with_chatgpt svc catalog llm query).isEmpty
  · have : search_with_chatgpt svc catalog llm query = [] := by
      cases h : search_with_chatgpt svc catalog llm query with
      | nil => rfl
      | cons a l => rw [h] at hids; simp at hids
    simp [hids, this]
  · simp only [hids, if_false]
    have hmem : ∀ pid ∈ search_with_chatgpt svc catalog llm query,
        ∃ p ∈ catalog.filter
            (fun p => (search_with_chatgpt svc catalog llm query).contains p.id),
          p.id = pid := by
      intro pid hpid
      obtain ⟨p, hp, hpe⟩ := search_with_chatgpt_mem svc catalog llm query pid hpid
      refine ⟨p, List.mem_filter.mpr ⟨hp, ?_⟩, hpe⟩
      rw [List.contains_eq_any_beq]
      exact List.any_eq_true.mpr ⟨pid, hpid, by simp [hpe]⟩
    have hmain := filterMap_dict_map_id
      (catalog.filter
        (fun p => (search_with_chatgpt svc catalog llm query).contains p.id))
      (search_with_chatgpt svc catalog llm query) hmem
    refine ⟨hmain.1, fun p hp => ?_⟩
    exact (List.mem_filter.mp (hmain.2 p hp)).1

/-- C4 witness: the semantic path returns ids `[2, 1]` and the materialized
records follow that order. -/
theorem c4_smart_search_preserves_order_witness :
    (smart_search ⟨true, true⟩ sample_catalog (LLMReply.parsed [2, 1]) "lamp").map
        (fun p => p.id)
        = search_with_chatgpt ⟨true, true⟩ sample_catalog (LLMReply.parsed [2, 1])
            "lamp"
    ∧ ∀ p ∈ smart_search ⟨true, true⟩ sample_catalog (LLMReply.parsed [2, 1])
          "lamp", p ∈ sample_catalog :=
  c4_smart_search_preserves_order ⟨true, true⟩ sample_catalog
    (LLMReply.parsed [2, 1]) "lamp" (by decide)

/-- C5: `fallback_search` keeps only whitespace-separated terms longer than
two characters; a product is returned precisely when some such term occurs
case-insensitively in its name, description or article, and when every term
of the query has length at most 2 the result is the empty list. -/
theorem c5_fallback_search_characterization (catalog : List Product)
    (query : String) :
    fallback_search catalog query =
      if (pysplit (py_lower query)).all (fun t => decide (t.length ≤ 2)) then
        ([] : List Int)
      else
        (catalog.filter (fun p => (pysplit (py_lower query)).any
            (fun t => decide (t.length > 2) && term_predicate t p))).map
          (fun p => p.id) := by
  unfold fallback_search
  cases hq : build_q (pysplit (py_lower query)) with
  | none =>
    have hall := (build_q_eq_none _).mp hq
    simp [hall]
  | some f =>
    have hall : ¬ ((pysplit (py_lower query)).all
        (fun t => decide (t.length ≤ 2)) = true) := by
      intro hc
      have := (build_q_eq_none _).mpr hc
      rw [hq] at this
      exact Option.noConfusion this
    rw [if_neg hall]
    show (catalog.filter f).map (fun p => p.id) = _
    congr 1
    apply List.filter_congr
    intro p _
    have h1 := q_holds_build_q (pysplit (py_lower query)) p
    rw [hq] at h1
    simpa [q_holds] using h1

/-- C6: a response text that fails JSON parsing makes `search_with_chatgpt`
return exactly `fallback_search`'s result for the query, for every service
state and catalog. -/
theorem c6_bad_json_equals_fallback (svc : ServiceState)
    (catalog : List Product) (query : String) :
    search_with_chatgpt svc catalog LLMReply.badJson query
      = fallback_search catalog query := by
  unfold search_with_chatgpt
  split
  · rfl
  · split
    · next hcat =>
      have hnil : catalog = [] := by
        cases catalog with
        | nil => rfl
        | cons a l => simp at hcat
      rw [hnil, fallback_search_nil]
    · rfl

/-- C7: with an empty catalog, `search_with_chatgpt` returns the empty list
for every query, every service state and every LLM behaviour (the result does
not depend on the LLM reply at all). -/
theorem c7_empty_catalog_empty_result (svc : ServiceState) (llm : LLMReply)
    (query : String) :
    search_with_chatgpt svc [] llm query = [] := by
  unfold search_with_chatgpt
  split
  · exact fallback_search_nil query
  · simp

/-- C8: with no API credential set, the status probe reports
`(available, configured) = (false, false)` whatever the state of the service
instance. -/
theorem c8_status_unset_credential (svc : ServiceState) :
    smart_search_status none svc = (false, false) := rfl

/-- C9: a credential that is a non-empty, whitespace-only string makes the
status probe report `configured = true` (plain truthiness), while the
service construction leaves `api_configured = false` (it requires a
non-blank `strip()`), so every search degrades to `fallback_search`: the
probe and the search behaviour disagree on this input. -/
theorem c9_whitespace_credential_probe_disagrees (k : String) (avail : Bool)
    (svc : ServiceState) (catalog : List Product) (llm : LLMReply)
    (query : String) (hne : k ≠ "") (hws : py_strip k = "") :
    (smart_search_status (some k) svc).2 = true
    ∧ (init_service avail (some k)).api_configured = false
    ∧ search_with_chatgpt (init_service avail (some k)) catalog llm query
        = fallback_search catalog query := by
  have htru : py_truthy k = true := by
    cases k with
    | mk data =>
      cases data with
      | nil => exact absurd rfl hne
      | cons c cs => rfl
  have hconf : (init_service avail (some k)).api_configured = false := by
    simp [init_service, hws, py_truthy]
  refine ⟨by simp [smart_search_status, htru], hconf, ?_⟩
  exact search_unconfigured _ catalog llm query (Or.inr hconf)

/-- C9 witness: the disagreement at the concrete credential `" "`. -/
theorem c9_whitespace_credential_probe_disagrees_witness :
    (smart_search_status (some " ") ⟨true, true⟩).2 = true
    ∧ (init_service true (some " ")).api_configured = false
    ∧ search_with_chatgpt (init_service true (some " ")) sample_catalog
          (LLMReply.parsed [1]) "lamp"
        = fallback_search sample_catalog "lamp" :=
  c9_whitespace_credential_probe_disagrees " " true ⟨true, true⟩ sample_catalog
    (LLMReply.parsed [1]) "lamp" (by decide) (by decide)

lemma core_invalid_tag_id_ignored (expand : ExpandQuery)
    (descend : Tag → List Tag) (catalog : List Product) (tags : List Tag)
    (query : String) (tid : Int) (smart : SmartOutcome)
    (h : tags.find? (fun t => t.id == tid) = none) :
    product_list_core expand descend catalog tags query (some tid) smart
      = search_stage expand catalog (py_strip query) smart := by
  unfold product_list_core tag_stage
  simp [h]

/-- C10, counterexample to the claim as stated: the truthy non-numeric tag
filter value `"abc"` does not identify an existing Tag, yet the orchestrator
does not silently ignore it: Django's integer pk coercion inside
`Tag.objects.get(id=tag_filter)` raises a `ValueError` that
`except Tag.DoesNotExist` does not catch, so the view propagates an
exception (`none`) instead of returning the pre-tag result — an error is
raised after all. -/
theorem c10_malformed_tag_filter_counterexample :
    product_list_view c1_expand (fun _ => []) sample_catalog
        [⟨5, "root", none, 0⟩] "lamp" "abc" (SmartOutcome.ok sample_catalog)
      = none := by decide

/-- C10 (amended): for every tag filter value that coerces to an integer id
(Django's pk coercion accepts it) but identifies no existing Tag, the
orchestrator silently ignores the filter — a result is returned (no error),
no tag filtering is applied, and the search mode keeps the value it had
before tag handling: the result is exactly the search stage's.  Truthy
non-numeric values instead make the tag lookup raise an uncaught
`ValueError`. -/
theorem c10_numeric_invalid_tag_filter_ignored (expand : ExpandQuery)
    (descend : Tag → List Tag) (catalog : List Product) (tags : List Tag)
    (query : String) (tag_filter : String) (tid : Int) (smart : SmartOutcome)
    (hparse : parse_tag_id tag_filter = some tid)
    (h : tags.find? (fun t => t.id == tid) = none) :
    product_list_view expand descend catalog tags query tag_filter smart
      = some (search_stage expand catalog (py_strip query) smart) := by
  have htru : py_truthy tag_filter = true := by
    cases tag_filter with
    | mk data =>
      cases data with
      | nil =>
        have hnone : parse_tag_id (String.mk []) = none := by decide
        rw [hnone] at hparse
        exact Option.noConfusion hparse
      | cons c cs => rfl
  unfold product_list_view
  rw [htru, hparse]
  simp only [if_true]
  rw [core_invalid_tag_id_ignored expand descend catalog tags query tid smart h]

/-- C10 witness: the concrete numeric tag filter `"7"` matches no existing
tag and is silently ignored. -/
theorem c10_numeric_invalid_tag_filter_ignored_witness :
    product_list_view c1_expand (fun _ => []) sample_catalog
        [⟨5, "root", none, 0⟩] "lamp" "7" (SmartOutcome.ok sample_catalog)
      = some (search_stage c1_expand sample_catalog (py_strip "lamp")
          (SmartOutcome.ok sample_catalog)) :=
  c10_numeric_invalid_tag_filter_ignored c1_expand (fun _ => []) sample_catalog
    [⟨5, "root", none, 0⟩] "lamp" "7" 7 (SmartOutcome.ok sample_catalog)
    (by decide) (by decide)
